import Mathlib

/-!
# GitTutor authentication subsystem — verification development

Shallow embedding of the authentication / authorization / teacher-verification
workflow of the GitTutor backend (Express + Mongoose), translated from:

* `src/backend/src/controllers/authController.js` (register, login,
  forgotPassword, resetPassword, verifyEmail)
* `src/backend/src/controllers/teacherController.js` (verifyTeacher)
* `src/backend/src/models/User.js` (user schema, methods)
* `src/backend/src/models/TeacherEmail.js` and the variant schema with numeric
  verification codes (part_008)
* `src/backend/src/middleware/upload/videoUpload.js` (protect, authorize)

Modelling conventions:
* The document store is a `DB` value; `findOne` queries become `List.find?`.
  Mongoose (v6+) applies schema setters (here `lowercase: true` on the email
  fields) both when writing and to query-filter values, so every email lookup
  compares against `String.toLower` of the filter value.
* Random byte draws (`crypto.randomBytes(..).toString('hex')`) are modelled
  symbolically: `TokVal.rand n` is the n-th draw of the operation, and
  `TokVal.sha256 t` is the hex SHA-256 digest of `t`
  (`crypto.createHash('sha256').update(t).digest('hex')`).
* bcrypt hashes are modelled as a structure embedding the plaintext and a
  salt; `bcrypt.compare` succeeds exactly on the original plaintext.
* JWTs (`jwt.sign({id, role}, secret)`) are modelled as their signed payload.
* JavaScript runtime errors that escape the handlers (property access on
  `undefined`, reading an out-of-scope identifier) are modelled by explicit
  `JsError` outcomes.
-/

namespace GitTutor

/-! ### Executable string primitives

JavaScript string operations (`toLowerCase`, `split`, `trim`, `includes`,
`startsWith`) modelled by structural recursion over `List Char`, so that
every definition evaluates inside the kernel. -/

/-- ASCII lowercase of one character (JS `toLowerCase` on the inputs used
here, which are ASCII). -/
def charLower (c : Char) : Char :=
  if 65 ≤ c.toNat ∧ c.toNat ≤ 90 then Char.ofNat (c.toNat + 32) else c

/-- JS `s.toLowerCase()`. -/
def strLower (s : String) : String :=
  ⟨s.toList.map charLower⟩

/-- JS `s.split(sep)` for a one-character separator. -/
def splitOnChar (sep : Char) : List Char → List (List Char)
  | [] => [[]]
  | c :: cs =>
      if c == sep then [] :: splitOnChar sep cs
      else
        match splitOnChar sep cs with
        | [] => [[c]]
        | g :: gs => (c :: g) :: gs

/-- The JS regex class `\s` on the characters that occur here. -/
def isSpaceChar (c : Char) : Bool :=
  c == ' ' || c == '\t' || c == '\n' || c == '\r' || c == '\u000b' || c == '\u000c'

/-- JS `s.trim()`. -/
def trimStr (s : String) : String :=
  ⟨((s.toList.dropWhile isSpaceChar).reverse.dropWhile isSpaceChar).reverse⟩

/-- Is `needle` a prefix of `hay`? (JS `startsWith`, on character lists) -/
def listStartsWith : List Char → List Char → Bool
  | [], _ => true
  | _ :: _, [] => false
  | a :: as, b :: bs => a == b && listStartsWith as bs

/-- Does `hay` contain `needle` as a contiguous run? -/
def listContainsRun (needle : List Char) : List Char → Bool
  | [] => needle.isEmpty
  | b :: bs => listStartsWith needle (b :: bs) || listContainsRun needle bs

/-- JS `hay.includes(needle)` (substring test), used on `req.originalUrl`. -/
def strIncludes (hay needle : String) : Bool :=
  listContainsRun needle.toList hay.toList

/-- The `role` enum of `userSchema` (User.js): student | teacher | admin. -/
inductive Role where
  | student
  | teacher
  | admin
deriving DecidableEq, Repr

/-- Render a role the way JS string interpolation does, for the
`authorize` 403 message. -/
def Role.asString : Role → String
  | .student => "student"
  | .teacher => "teacher"
  | .admin => "admin"

/-- Symbolic token values. `rand n` is the n-th random hex token drawn during
an operation (`crypto.randomBytes(..).toString('hex')`); `sha256 t` is the
SHA-256 hex digest of `t`. Distinct constructors model that a hex digest is
never confused with a fresh random draw. -/
inductive TokVal where
  | rand (n : Nat)
  | sha256 (t : TokVal)
deriving DecidableEq, Repr

/-- bcrypt hash model: the hash embeds its own salt (User.js pre-save hook,
`bcrypt.hash(password, 12)`). -/
structure BcryptHash where
  plain : String
  salt : Nat
deriving DecidableEq, Repr

/-- Model of `bcrypt.compare(candidate, stored)` — true exactly when the candidate is
the plaintext the hash was derived from. -/
def bcryptCompare (candidate : String) (h : BcryptHash) : Bool :=
  candidate == h.plain

/-- A signed bearer token: `jwt.sign({ id, role }, JWT_SECRET, ...)`
(User.js `getSignedJwtToken`). The server never stores these. -/
structure Jwt where
  id : Nat
  role : Role
deriving DecidableEq, Repr

/-- A stored user document (User.js `userSchema`). -/
structure UserRec where
  id : Nat
  name : String
  email : String
  password : BcryptHash
  role : Role
  isEmailVerified : Bool
  emailVerificationToken : Option TokVal
  emailVerificationExpire : Option Nat
  resetPasswordToken : Option TokVal
  resetPasswordExpire : Option Nat
  teacherEmailId : Option Nat
deriving DecidableEq, Repr

/-- A stored teacher allow-list document (TeacherEmail schema, numeric-code
variant of part_008: `verificationCode`, `verificationExpires`, `isVerified`,
`verifiedAt`, `isUsed`). -/
structure TeacherEmailRec where
  id : Nat
  email : String
  verificationCode : Option String
  verificationExpires : Nat
  isVerified : Bool
  verifiedAt : Option Nat
  isUsed : Bool
deriving DecidableEq, Repr

/-- The document store. -/
structure DB where
  users : List UserRec
  teacherEmails : List TeacherEmailRec
deriving DecidableEq, Repr

/-- Lookup `User.findOne({ email })`: the schema has `lowercase: true` on `email`,
so the setter lowercases both stored values and the query-filter value. -/
def findUserByEmail (db : DB) (email : String) : Option UserRec :=
  db.users.find? (fun u => u.email == strLower email)

/-- Lookup `User.findById(id)`. -/
def findUserById (db : DB) (id : Nat) : Option UserRec :=
  db.users.find? (fun u => u.id == id)

/-- Lookup `TeacherEmail.findOne({ email: email.toLowerCase(), isUsed: false })`
(authController.js:60-63 and 76-79). Note: the filter does NOT mention
`isVerified`. -/
def findTeacherEmailUnused (db : DB) (email : String) : Option TeacherEmailRec :=
  db.teacherEmails.find? (fun t => t.email == strLower email && t.isUsed == false)

/-- Token issue `user.getSignedJwtToken()` (User.js:92-98). -/
def getSignedJwtToken (u : UserRec) : Jwt :=
  ⟨u.id, u.role⟩

/-- A JSON response. `token`/`verificationToken` model those fields of the
response body when present. (The register validation-error branch really
responds `{ errors: [...] }`; it is modelled by the message
"express-validator errors".) -/
structure Resp where
  status : Nat
  success : Bool
  message : String
  token : Option Jwt := none
  verificationToken : Option TokVal := none
deriving DecidableEq, Repr

/-! ## Email-format checks

`/^[^\s@]+@[^\s@]+\.[^\s@]+$/` (authController.js:27) and the schema match
`/^\S+@\S+\.\S+$/` (User.js:43). -/

/-- One `[^\s@]+` atom: nonempty, no whitespace (after splitting on `@` the
parts contain no `@` by construction). -/
def emailAtomOk (cs : List Char) : Bool :=
  !cs.isEmpty && cs.all (fun c => !(isSpaceChar c))

/-- The controller regex `/^[^\s@]+@[^\s@]+\.[^\s@]+$/` (authController.js:27):
exactly one `@`, both sides nonempty without whitespace, and the domain side
has a `.` at an interior position (`[^\s@]+\.[^\s@]+`). -/
def validEmailFormat (email : String) : Bool :=
  match splitOnChar '@' email.toList with
  | [lp, dom] =>
      emailAtomOk lp && emailAtomOk dom && ((dom.drop 1).dropLast.contains '.')
  | _ => false

/-- The schema regex `/^\S+@\S+\.\S+$/` (User.js:43): no whitespace, and
there are positions `i < j` with `'@'` at `i`, `'.'` at `j`, and nonempty
segments around them (`\S+` may itself contain `@` or `.`, hence the
existential form). -/
def schemaEmailOk (s : String) : Bool :=
  let cs := s.toList
  cs.all (fun c => !(isSpaceChar c)) &&
  (List.range cs.length).any (fun i =>
    cs.getD i ' ' == '@' && decide (1 ≤ i) &&
    (List.range cs.length).any (fun j =>
      cs.getD j ' ' == '.' && decide (i + 2 ≤ j) && decide (j + 1 < cs.length)))

/-- Mongoose document validation run by `User.create` (User.js): `name`
required (trimmed), `password` minlength 6, email matches the schema regex.
(The custom role/domain validator returns `true` for new documents,
User.js:24.) A validation failure makes `create` throw, which the
controller's catch maps to a 500. -/
def createValidationOk (name email password : String) : Bool :=
  trimStr name != "" && decide (6 ≤ password.toList.length) && schemaEmailOk email

/-! ## Registration (authController.js `register`, lines 12-177) -/

/-- The student-route domain rule (authController.js:36-40):
`email.split('@')[1].toLowerCase() === 'students.git.edu'`. -/
def studentDomainOk (email : String) : Bool :=
  ((splitOnChar '@' email.toList).getD 1 []).map charLower
    == "students.git.edu".toList

/-- The request as the register controller sees it. -/
structure RegisterReq where
  originalUrl : String
  name : String
  email : String
  password : String
deriving DecidableEq, Repr

/-- Result of a register call: the HTTP response, the store afterwards, and
the successive values persisted to the user's `emailVerificationToken` field
during the operation (used to audit hashed-token storage). -/
structure RegisterResult where
  resp : Resp
  db : DB
  tokenWrites : List TokVal
deriving DecidableEq, Repr

/-- The `register` controller (authController.js:12-177).

Inputs beyond the request: `valErrs` is whether the route-level
express-validator chain recorded errors (part_009 routes: name nonempty,
email `isEmail()`, password ≥ 6 chars); `now` the clock (ms); `c` the index
of the next random draw; `emailOk` whether `sendEmail` succeeds (it only
changes the success message, authController.js:145-161).

Steps, in source order:
1. validation errors → 400;
2. non-admin: email format check → 400; non-admin non-teacher: domain must
   be `students.git.edu` (case-insensitive) → 400;
3. duplicate user check (`User.findOne({email})`) → 400;
4. teacher route: allow-list lookup `{email, isUsed:false}` → 400 if absent
   (the code performs this same query twice, lines 60 and 76; both reject
   with their own message — the second is dead code under one store);
5. `User.create` — for teachers this persists a RAW random token
   (`crypto.randomBytes(32).toString('hex')`, line 98) in
   `emailVerificationToken`, then `getEmailVerificationToken()` + `save`
   overwrites it with the SHA-256 of a fresh raw token (User.js:101-115);
   the 201 response carries a signed JWT and (teacher) the raw token.
-/
def register (db : DB) (req : RegisterReq) (valErrs : Bool) (now c : Nat)
    (emailOk : Bool) : RegisterResult :=
  let isAdmin := strIncludes req.originalUrl "/register/admin"
  let isTeacher := strIncludes req.originalUrl "/register/teacher"
  if valErrs then
    ⟨⟨400, false, "express-validator errors", none, none⟩, db, []⟩
  else if !isAdmin && !(validEmailFormat req.email) then
    ⟨⟨400, false, "Please provide a valid email address.", none, none⟩, db, []⟩
  else if !isAdmin && !isTeacher && !(studentDomainOk req.email) then
    ⟨⟨400, false, "Student registration requires a @students.git.edu email address.",
      none, none⟩, db, []⟩
  else
    match findUserByEmail db req.email with
    | some _ =>
        ⟨⟨400, false, "User already exists with this email", none, none⟩, db, []⟩
    | none =>
        match (if isTeacher then findTeacherEmailUnused db req.email else none) with
        | none =>
            if isTeacher then
              ⟨⟨400, false,
                "This email is not authorized for teacher access or has already been used.",
                none, none⟩, db, []⟩
            else
              -- student/admin: no allow-list gate; proceed to create
              if !(createValidationOk req.name (strLower req.email) req.password) then
                ⟨⟨500, false, "Server error during registration", none, none⟩, db, []⟩
              else
                let u : UserRec :=
                  { id := db.users.length
                    name := req.name
                    email := strLower req.email
                    password := ⟨req.password, c⟩
                    role := if isAdmin then .admin else .student
                    isEmailVerified := true  -- isAdminRegistration || !isTeacherSignup
                    emailVerificationToken := none
                    emailVerificationExpire := none
                    resetPasswordToken := none
                    resetPasswordExpire := none
                    teacherEmailId := none }
                ⟨⟨201, true, "Registration successful! You can now log in.", none, none⟩,
                  ⟨db.users ++ [u], db.teacherEmails⟩, []⟩
        | some doc =>
            -- teacher signup with an available allow-list record
            if !(createValidationOk req.name (strLower req.email) req.password) then
              ⟨⟨500, false, "Server error during registration", none, none⟩, db, []⟩
            else
              -- User.create: raw random token persisted (line 98)
              let rawAtCreate : TokVal := .rand c
              -- getEmailVerificationToken(): fresh raw token, SHA-256 stored
              let rawEmailed : TokVal := .rand (c + 1)
              let u : UserRec :=
                { id := db.users.length
                  name := req.name
                  email := strLower req.email
                  password := ⟨req.password, c⟩
                  -- userRole = isAdmin ? 'admin' : (isTeacher ? 'teacher' : 'student');
                  -- isEmailVerified = isAdmin || !isTeacher (here isTeacher = true)
                  role := if isAdmin then .admin else .teacher
                  isEmailVerified := isAdmin
                  emailVerificationToken := some (.sha256 rawEmailed)
                  emailVerificationExpire := some (now + 10 * 60 * 1000)
                  resetPasswordToken := none
                  resetPasswordExpire := none
                  teacherEmailId := some doc.id }
              ⟨⟨201, true,
                (if emailOk then
                  "Registration successful! Please check your email to verify your account."
                else
                  "Registration successful! However, we encountered an issue sending the verification email. Please use the verification token provided to verify your account."),
                some (getSignedJwtToken u), some rawEmailed⟩,
                ⟨db.users ++ [u], db.teacherEmails⟩,
                [rawAtCreate, .sha256 rawEmailed]⟩

/-! ## Login (authController.js `login`, lines 182-251) -/

/-- The `login` controller (authController.js:182-251). Missing email/password (JS falsy:
empty string) → 400; unknown email → 401 "Invalid credentials"; bcrypt
mismatch → 401 "Invalid credentials"; unverified teacher → 401 (the code
also regenerates and persists a fresh verification token there, a mutation
not needed by any claim, and the response carries no bearer token);
otherwise 200 with a signed JWT. -/
def login (db : DB) (email password : String) : Resp :=
  if email == "" || password == "" then
    ⟨400, false, "Please provide an email and password", none, none⟩
  else
    match findUserByEmail db email with
    | none => ⟨401, false, "Invalid credentials", none, none⟩
    | some u =>
        if !(bcryptCompare password u.password) then
          ⟨401, false, "Invalid credentials", none, none⟩
        else if u.role == Role.teacher && !u.isEmailVerified then
          ⟨401, false, "Please verify your email before logging in", none, none⟩
        else
          ⟨200, true, "", some (getSignedJwtToken u), none⟩

/-! ## Auth middleware (videoUpload.js `protect` 376-413, `authorize` 416-426) -/

/-- JavaScript runtime errors escaping a handler. -/
inductive JsError where
  | typeError
  | referenceError
deriving DecidableEq, Repr

/-- Result of `jwt.verify(token, secret)`: the decoded `{id, role}` payload,
or one of the three failure classes (jsonwebtoken: `TokenExpiredError`,
parse failure, signature failure — the middleware catch sees them all). -/
inductive JwtVerify where
  | ok (id : Nat) (role : Role)
  | expired
  | malformed
  | invalidSignature
deriving DecidableEq, Repr

/-- Outcome of a middleware call: a rejection response, a call to `next()`
with the value left in `req.user`, or an uncaught JS error. -/
inductive MwOutcome where
  | reject (status : Nat) (message : String)
  | next (reqUser : Option UserRec)
  | thrown (e : JsError)
deriving DecidableEq, Repr

/-- Token extraction (videoUpload.js:381-383): take
`req.headers.authorization`, require a `Bearer` prefix, split on spaces and
take index 1. A missing header, missing piece or empty piece is JS-falsy and
lands in the `!token` branch, modelled as `none`. -/
def extractBearerToken (authHeader : Option String) : Option String :=
  match authHeader with
  | none => none
  | some h =>
      if listStartsWith "Bearer".toList h.toList then
        match (splitOnChar ' ' h.toList).get? 1 with
        | none => none
        | some t => if t.isEmpty then none else some ⟨t⟩
      else none

/-- Core of `protect` after token extraction (videoUpload.js:386-405):
no token → 401 "Not authorized to access this route"; any `jwt.verify`
failure → the single catch produces 401 "Not authorized, token failed"
(one message for expired, malformed and bad-signature alike); on success
`req.user = await User.findById(decoded.id)` — possibly `null` — and
`next()` is called with no null check. Polymorphic in the token
representation so that both raw header strings and issued `Jwt` payloads can
be fed through it. -/
def protectCore {σ : Type} (verify : σ → JwtVerify) (findById : Nat → Option UserRec)
    (token : Option σ) : MwOutcome :=
  match token with
  | none => .reject 401 "Not authorized to access this route"
  | some t =>
      match verify t with
      | .ok id _ => .next (findById id)
      | _ => .reject 401 "Not authorized, token failed"

/-- The full `protect` middleware (videoUpload.js:376-413). -/
def protect (verify : String → JwtVerify) (findById : Nat → Option UserRec)
    (authHeader : Option String) : MwOutcome :=
  protectCore verify findById (extractBearerToken authHeader)

/-- Role gate `authorize(...roles)` (videoUpload.js:416-426): evaluates
`roles.includes(req.user.role)` directly. When no identity was attached
(`req.user` is `undefined` or `null`), the property access `req.user.role`
throws a TypeError — there is no guard. -/
def authorize (roles : List Role) (reqUser : Option UserRec) : MwOutcome :=
  match reqUser with
  | none => .thrown .typeError
  | some u =>
      if roles.contains u.role then .next (some u)
      else .reject 403 ("User role " ++ u.role.asString ++ " is not authorized to access this route")

/-- Verification of a token this server issued: the payload is signed with
the process secret, so `jwt.verify` decodes it (within the 30-day default
expiry; no claim involves the expiry of a just-issued token). -/
def issuedJwtVerify : Jwt → JwtVerify :=
  fun j => .ok j.id j.role

/-! ## Forgot-password (authController.js `forgotPassword`, lines 276-319)

The controller does, in order:
1. `User.findOne({ email: req.body.email })`; absent → 404.
2. `const resetToken = user.getResetPasswordToken();` — but
   `userSchema.methods` (User.js:87-115) defines only `comparePassword`,
   `getSignedJwtToken` and `getEmailVerificationToken`; there is no
   `getResetPasswordToken`, so this call is `undefined(...)` and throws a
   TypeError before anything is saved.
3. The `catch (err)` block runs `if (user) { ...rollback...; await
   user.save(...) }` — but `user` is a `const` declared INSIDE the `try`
   block (line 278) and is not in scope in the catch block, so evaluating
   `user` throws a ReferenceError; the rollback and the 500 response are
   unreachable, and the handler's promise rejects.
-/

/-- The method names `userSchema.methods` actually defines (User.js:87-115). -/
def userMethodNames : List String :=
  ["comparePassword", "getSignedJwtToken", "getEmailVerificationToken"]

/-- The identifiers in scope inside `forgotPassword`'s catch block: the
function parameters and the catch binder. `user` is not among them — it is
`const`-declared inside the try block. -/
def forgotPasswordCatchScope : List String :=
  ["req", "res", "err"]

/-- Calling `obj.m(...)` in JS: a TypeError if `m` is not a method of `obj`. -/
def jsCallUserMethod (m : String) : Except JsError Unit :=
  if userMethodNames.contains m then .ok () else .error .typeError

/-- Reading identifier `x` under scope `scope`: ReferenceError if unbound. -/
def jsReadVar (scope : List String) (x : String) : Except JsError Unit :=
  if scope.contains x then .ok () else .error .referenceError

/-- How a request handler terminates: with a response, or by raising a JS
error that escapes the handler (no response is written). -/
inductive HandlerOutcome where
  | respond (r : Resp)
  | crashed (e : JsError)
deriving DecidableEq, Repr

/-- The `forgotPassword` controller (authController.js:276-319). Returns the outcome and
the store afterwards. -/
def forgotPassword (db : DB) (email : String) : HandlerOutcome × DB :=
  match findUserByEmail db email with
  | none =>
      (.respond ⟨404, false, "No user found with that email", none, none⟩, db)
  | some _user =>
      match jsCallUserMethod "getResetPasswordToken" with
      | .ok _ =>
          -- Unreachable: `userMethodNames` has no "getResetPasswordToken".
          -- (Were the method present, the token would be persisted and the
          -- reset email sent here.)
          (.respond ⟨200, true, "Email sent", none, none⟩, db)
      | .error _ =>
          -- TypeError lands in the catch block, whose first statement
          -- evaluates the out-of-scope identifier `user`.
          match jsReadVar forgotPasswordCatchScope "user" with
          | .ok _ =>
              (.respond ⟨500, false, "Email could not be sent", none, none⟩, db)
          | .error e => (.crashed e, db)

/-! ## Teacher one-time-code verification
(teacherController.js `verifyTeacher`, lines 168-201) -/

/-- The `TeacherEmail.findOne` filter of verifyTeacher
(teacherController.js:173-178): email (lowercased by the caller and the
schema setter), exact `verificationCode`, unexpired, unused. -/
def verifyTeacherFind (db : DB) (email code : String) (now : Nat) :
    Option TeacherEmailRec :=
  db.teacherEmails.find? (fun t =>
    t.email == strLower email && t.verificationCode == some code &&
    decide (now < t.verificationExpires) && t.isUsed == false)

/-- The `verifyTeacher` controller (teacherController.js:168-201): on a match, one `save`
sets `isVerified = true`, `verifiedAt = now` and clears `verificationCode`;
`save` writes back the document identified by its `_id`. -/
def verifyTeacher (db : DB) (email code : String) (now : Nat) : Resp × DB :=
  match verifyTeacherFind db email code now with
  | none =>
      (⟨400, false, "Invalid or expired verification code", none, none⟩, db)
  | some t =>
      let t' : TeacherEmailRec :=
        { t with isVerified := true, verifiedAt := some now, verificationCode := none }
      (⟨200, true,
        "Email verified successfully. You can now complete your teacher registration.",
        none, none⟩,
       ⟨db.users, db.teacherEmails.map (fun x => if x.id == t.id then t' else x)⟩)

/-! ## Concrete fixtures used by counterexamples and witnesses -/

/-- An allow-listed teacher email, verified and unused. -/
def grantVerified : TeacherEmailRec :=
  ⟨1, "prof@git.edu", none, 0, true, none, false⟩

/-- An allow-listed teacher email, NOT verified and unused. -/
def grantUnverified : TeacherEmailRec :=
  ⟨1, "prof@git.edu", none, 0, false, none, false⟩

/-- Store with one verified, unused allow-list entry and no users. -/
def dbGrantVerified : DB := ⟨[], [grantVerified]⟩

/-- Store with one unverified, unused allow-list entry and no users. -/
def dbGrantUnverified : DB := ⟨[], [grantUnverified]⟩

/-- A teacher-route registration request for the allow-listed email. -/
def reqTeacherProf : RegisterReq :=
  ⟨"/api/auth/register/teacher", "Prof", "prof@git.edu", "secret1"⟩

/-- A stored teacher account that has not verified its email. -/
def uProf : UserRec :=
  ⟨0, "Prof", "prof@git.edu", ⟨"secret1", 0⟩, Role.teacher, false,
   none, none, none, none, none⟩

/-- Store holding just the unverified teacher `uProf`. -/
def dbProf : DB := ⟨[uProf], []⟩

/-! ## Claim theorems -/

/-- C5 counterexample: when no identity is attached to the request, the
`authorize` middleware does not reject with 401 "Not authorized to access
this route" — it throws a TypeError (`req.user.role` on `undefined`,
videoUpload.js:418). -/
theorem authorize_no_identity_counterexample :
    authorize [Role.admin] none = .thrown .typeError ∧
    authorize [Role.admin] none ≠ .reject 401 "Not authorized to access this route" := by
  decide

/-- C5 (amended): for every allowed-role list, a request reaching
`authorize` with no identity attached makes the middleware throw a
TypeError (dereferencing `req.user.role` without a guard); it never
produces a rejection response of any status, in particular not the 401
"Not authorized to access this route" of an anonymous request. -/
theorem authorize_no_identity_throws (roles : List Role) :
    authorize roles none = .thrown .typeError ∧
    ∀ s m, authorize roles none ≠ .reject s m := by
  refine ⟨rfl, ?_⟩
  intro s m h
  simp [authorize] at h

/-- C4: for every store and every email that resolves to an existing
identity, the `forgotPassword` handler crashes with a ReferenceError and
leaves the store unchanged — no hashed reset token or expiry is ever
persisted, because `user.getResetPasswordToken()` is not a method of the
User model (TypeError), and the catch block then reads the try-scoped
`user` (ReferenceError). -/
theorem forgotPassword_crashes_on_existing_user
    (db : DB) (email : String) (u : UserRec)
    (hfind : findUserByEmail db email = some u) :
    forgotPassword db email = (.crashed .referenceError, db) := by
  simp [forgotPassword, hfind, jsCallUserMethod, userMethodNames,
    jsReadVar, forgotPasswordCatchScope]

/-- C4 witness: the crash at a concrete store and email. -/
theorem forgotPassword_crashes_on_existing_user_witness :
    forgotPassword dbProf "prof@git.edu" = (.crashed .referenceError, dbProf) :=
  forgotPassword_crashes_on_existing_user dbProf "prof@git.edu" uProf (by decide)

/-- C6: the forgot-password error path never reports the delivery failure
and never rolls anything back: for every store and email the handler either
answers 404 (unknown email) or crashes with a ReferenceError before the
catch block's rollback/500 code can run (`user` is out of scope in the
catch); the 500 "Email could not be sent" response is unreachable, and the
store is returned unchanged in all cases. -/
theorem forgotPassword_error_path_never_reports (db : DB) (email : String) :
    (forgotPassword db email).2 = db ∧
    (forgotPassword db email).1 ≠
      .respond ⟨500, false, "Email could not be sent", none, none⟩ := by
  cases h : findUserByEmail db email <;>
    refine ⟨by simp [forgotPassword, h, jsCallUserMethod, userMethodNames,
      jsReadVar, forgotPasswordCatchScope], ?_⟩ <;>
    simp [forgotPassword, h, jsCallUserMethod, userMethodNames,
      jsReadVar, forgotPasswordCatchScope]

/-- C7: a login with an existing email but wrong password and a login with
a nonexistent email produce literally the same response: status 401,
`success: false`, message "Invalid credentials", no token — the caller
cannot tell whether the account exists. -/
theorem login_failures_indistinguishable
    (db : DB) (e1 p1 e2 p2 : String) (u : UserRec)
    (he1 : (e1 == "") = false) (hp1 : (p1 == "") = false)
    (he2 : (e2 == "") = false) (hp2 : (p2 == "") = false)
    (hfind1 : findUserByEmail db e1 = some u)
    (hcmp : bcryptCompare p1 u.password = false)
    (hfind2 : findUserByEmail db e2 = none) :
    login db e1 p1 = ⟨401, false, "Invalid credentials", none, none⟩ ∧
    login db e2 p2 = ⟨401, false, "Invalid credentials", none, none⟩ ∧
    login db e1 p1 = login db e2 p2 := by
  refine ⟨?_, ?_, ?_⟩ <;>
    simp [login, he1, hp1, he2, hp2, hfind1, hfind2, hcmp]

/-- C7 witness: wrong password for the stored teacher vs. a ghost email. -/
theorem login_failures_indistinguishable_witness :
    login dbProf "prof@git.edu" "wrongpw" = ⟨401, false, "Invalid credentials", none, none⟩ ∧
    login dbProf "ghost@git.edu" "whatever" = ⟨401, false, "Invalid credentials", none, none⟩ ∧
    login dbProf "prof@git.edu" "wrongpw" = login dbProf "ghost@git.edu" "whatever" :=
  login_failures_indistinguishable dbProf "prof@git.edu" "wrongpw" "ghost@git.edu"
    "whatever" uProf (by decide) (by decide) (by decide) (by decide)
    (by decide) (by decide) (by decide)

/-- C1 counterexample: registering a teacher (with a verified, unused
allow-list entry) yields a 201 whose body contains a signed bearer token for
the new account although its `isEmailVerified` flag is false; and that very
token, presented to the `protect` middleware, authenticates successfully
(`next()` is reached with the unverified identity attached). So an
operation other than login does hand an unverified teacher a usable bearer
token. -/
theorem register_hands_unverified_teacher_token_counterexample :
    (register dbGrantVerified reqTeacherProf false 0 0 true).resp.status = 201 ∧
    (register dbGrantVerified reqTeacherProf false 0 0 true).resp.token
      = some ⟨0, Role.teacher⟩ ∧
    ((findUserById (register dbGrantVerified reqTeacherProf false 0 0 true).db 0).map
      (fun u => (u.role, u.isEmailVerified))) = some (Role.teacher, false) ∧
    (protectCore issuedJwtVerify
        (findUserById (register dbGrantVerified reqTeacherProf false 0 0 true).db)
        (register dbGrantVerified reqTeacherProf false 0 0 true).resp.token)
      = .next (findUserById (register dbGrantVerified reqTeacherProf false 0 0 true).db 0) ∧
    (findUserById (register dbGrantVerified reqTeacherProf false 0 0 true).db 0).isSome
      = true := by
  decide

/-- C1 (amended): login does reject an unverified teacher with 401
"Please verify your email before logging in" and hands out no bearer token
there; but every successful teacher-route registration response carries a
signed bearer token for the freshly created (still unverified) account. -/
theorem unverified_teacher_login_rejected_but_register_tokens :
    (∀ db email pw u, findUserByEmail db email = some u →
      (email == "") = false → (pw == "") = false →
      bcryptCompare pw u.password = true →
      u.role = Role.teacher → u.isEmailVerified = false →
      login db email pw =
        ⟨401, false, "Please verify your email before logging in", none, none⟩) ∧
    (∀ db req valErrs now c emailOk,
      strIncludes req.originalUrl "/register/teacher" = true →
      strIncludes req.originalUrl "/register/admin" = false →
      (register db req valErrs now c emailOk).resp.status = 201 →
      (register db req valErrs now c emailOk).resp.token
        = some ⟨db.users.length, Role.teacher⟩) := by
  constructor
  · intro db email pw u hfind he hp hcmp hrole hver
    simp [login, he, hp, hfind, hcmp, hrole, hver]
  · intro db req valErrs now c emailOk hT hA h201
    cases valErrs with
    | true => simp [register] at h201
    | false =>
      cases hfmt : validEmailFormat req.email with
      | false => simp [register, hT, hA, hfmt] at h201
      | true =>
        cases hfu : findUserByEmail db req.email with
        | some u => simp [register, hT, hA, hfmt, hfu] at h201
        | none =>
          cases hg : findTeacherEmailUnused db req.email with
          | none => simp [register, hT, hA, hfmt, hfu, hg] at h201
          | some doc =>
            cases hval : createValidationOk req.name (strLower req.email) req.password with
            | false => simp [register, hT, hA, hfmt, hfu, hg, hval] at h201
            | true => simp [register, getSignedJwtToken, hT, hA, hfmt, hfu, hg, hval]

/-- C1 witness: the login rejection and the register-issued token at
concrete inputs. -/
theorem unverified_teacher_login_rejected_but_register_tokens_witness :
    login dbProf "prof@git.edu" "secret1" =
      ⟨401, false, "Please verify your email before logging in", none, none⟩ ∧
    (register dbGrantVerified reqTeacherProf false 0 0 true).resp.token
      = some ⟨0, Role.teacher⟩ :=
  ⟨unverified_teacher_login_rejected_but_register_tokens.1 dbProf "prof@git.edu"
      "secret1" uProf (by decide) (by decide) (by decide) (by decide) rfl rfl,
   unverified_teacher_login_rejected_but_register_tokens.2 dbGrantVerified
      reqTeacherProf false 0 0 true (by decide) (by decide) (by decide)⟩

/-- C2 counterexample: with an allow-list record that is unused but NOT
verified, the mounted teacher registration still answers 201 and creates
the Identity — the `isVerified` flag plays no role in the query
`TeacherEmail.findOne({email, isUsed: false})` (authController.js:60-63). -/
theorem teacher_register_ignores_verified_flag_counterexample :
    (∀ t ∈ dbGrantUnverified.teacherEmails, t.isVerified = false) ∧
    (register dbGrantUnverified reqTeacherProf false 0 0 true).resp.status = 201 ∧
    (register dbGrantUnverified reqTeacherProf false 0 0 true).db.users ≠ [] := by
  decide

/-- C2 (amended): a teacher-route registration succeeds only if a matching
UNUSED TeacherEmail record exists for that email (the mounted controller
does not consult the record's `isVerified` flag); when no matching unused
record exists, the request is rejected with 400 and no Identity is
created. -/
theorem teacher_register_requires_unused_grant
    (db : DB) (req : RegisterReq) (now c : Nat) (emailOk : Bool)
    (hT : strIncludes req.originalUrl "/register/teacher" = true)
    (hfmt : validEmailFormat req.email = true)
    (hfu : findUserByEmail db req.email = none)
    (hgrant : findTeacherEmailUnused db req.email = none) :
    register db req false now c emailOk =
      ⟨⟨400, false,
        "This email is not authorized for teacher access or has already been used.",
        none, none⟩, db, []⟩ := by
  cases hA : strIncludes req.originalUrl "/register/admin" <;>
    simp [register, hT, hA, hfmt, hfu, hgrant]

/-- C2 witness: rejection at a concrete store with no allow-list entry. -/
theorem teacher_register_requires_unused_grant_witness :
    register ⟨[], []⟩ reqTeacherProf false 0 0 true =
      ⟨⟨400, false,
        "This email is not authorized for teacher access or has already been used.",
        none, none⟩, ⟨[], []⟩, []⟩ :=
  teacher_register_requires_unused_grant ⟨[], []⟩ reqTeacherProf 0 0 true
    (by decide) (by decide) (by decide) (by decide)

/-- C8 counterexample: in a teacher registration, the successive values
persisted to `emailVerificationToken` are first a RAW random token
(`crypto.randomBytes(32).toString('hex')` at `User.create`,
authController.js:98) and only then the SHA-256 of the raw token that is
mailed out; the first persisted value is not the SHA-256 image of
anything — a raw token is written to storage in clear during the
operation. -/
theorem raw_token_persisted_at_create_counterexample :
    (register dbGrantVerified reqTeacherProf false 0 0 true).tokenWrites
      = [TokVal.rand 0, TokVal.sha256 (TokVal.rand 1)] ∧
    ¬ ∃ r, TokVal.rand 0 = TokVal.sha256 r := by
  refine ⟨by decide, ?_⟩
  rintro ⟨r, h⟩
  exact TokVal.noConfusion h

/-- C8 (amended): in every successful teacher registration, the FINAL value
stored in `emailVerificationToken` is the SHA-256 hash of the raw token
returned to the user, and that raw token itself is never persisted; however
the initial `User.create` persists a distinct raw random token in clear,
which the subsequent save overwrites with the hashed form. -/
theorem hashed_token_storage_with_raw_interim
    (db : DB) (req : RegisterReq) (now c : Nat) (emailOk : Bool)
    (doc : TeacherEmailRec)
    (hT : strIncludes req.originalUrl "/register/teacher" = true)
    (hA : strIncludes req.originalUrl "/register/admin" = false)
    (hfmt : validEmailFormat req.email = true)
    (hfu : findUserByEmail db req.email = none)
    (hgrant : findTeacherEmailUnused db req.email = some doc)
    (hval : createValidationOk req.name (strLower req.email) req.password = true) :
    (register db req false now c emailOk).tokenWrites
      = [TokVal.rand c, TokVal.sha256 (TokVal.rand (c + 1))] ∧
    (register db req false now c emailOk).resp.verificationToken
      = some (TokVal.rand (c + 1)) ∧
    TokVal.rand (c + 1) ∉ (register db req false now c emailOk).tokenWrites ∧
    ((register db req false now c emailOk).db.users.map
        (fun u => u.emailVerificationToken))
      = (db.users.map (fun u => u.emailVerificationToken))
        ++ [some (TokVal.sha256 (TokVal.rand (c + 1)))] := by
  refine ⟨?_, ?_, ?_, ?_⟩ <;>
    simp [register, hT, hA, hfmt, hfu, hgrant, hval]

/-- C8 witness: the write trace, response token and final stored hash at a
concrete teacher registration. -/
theorem hashed_token_storage_with_raw_interim_witness :
    (register dbGrantVerified reqTeacherProf false 0 0 true).tokenWrites
      = [TokVal.rand 0, TokVal.sha256 (TokVal.rand 1)] ∧
    (register dbGrantVerified reqTeacherProf false 0 0 true).resp.verificationToken
      = some (TokVal.rand 1) ∧
    TokVal.rand 1 ∉ (register dbGrantVerified reqTeacherProf false 0 0 true).tokenWrites ∧
    ((register dbGrantVerified reqTeacherProf false 0 0 true).db.users.map
        (fun u => u.emailVerificationToken))
      = [some (TokVal.sha256 (TokVal.rand 1))] :=
  hashed_token_storage_with_raw_interim dbGrantVerified reqTeacherProf 0 0 true
    grantVerified (by decide) (by decide) (by decide) (by decide) (by decide) (by decide)

/-- A token verifier covering all failure classes, for exercising
`protect`. -/
def sampleVerify : String → JwtVerify := fun t =>
  if t == "exp" then .expired
  else if t == "mal" then .malformed
  else if t == "sig" then .invalidSignature
  else .ok 7 Role.teacher

/-- An identity lookup that resolves no id (the token's subject was
deleted). -/
def sampleFindNone : Nat → Option UserRec := fun _ => none

/-- C3 counterexample: an expired token, a malformed token and a
bad-signature token are all rejected with the SAME 401 message
"Not authorized, token failed" — the failure classes are not mapped to
distinct messages; moreover a token that verifies but whose subject id
resolves to no stored identity is NOT rejected: `protect` attaches `none`
and continues to the next handler. -/
theorem protect_single_failure_message_counterexample :
    sampleVerify "exp" = .expired ∧
    sampleVerify "mal" = .malformed ∧
    sampleVerify "sig" = .invalidSignature ∧
    protect sampleVerify sampleFindNone (some "Bearer exp")
      = .reject 401 "Not authorized, token failed" ∧
    protect sampleVerify sampleFindNone (some "Bearer mal")
      = .reject 401 "Not authorized, token failed" ∧
    protect sampleVerify sampleFindNone (some "Bearer sig")
      = .reject 401 "Not authorized, token failed" ∧
    sampleVerify "tok" = .ok 7 Role.teacher ∧
    sampleFindNone 7 = none ∧
    protect sampleVerify sampleFindNone (some "Bearer tok") = .next none := by
  decide

/-- C3 (amended): the actual `protect` state machine. No extractable token
rejects with 401 "Not authorized to access this route"; a token whose
verification fails — whether expired, malformed or with an invalid
signature — rejects with the single 401 message "Not authorized, token
failed"; a token that verifies attaches whatever the id lookup returns
(possibly nothing at all) and continues to the next handler — an
unresolvable subject id does not reject. -/
theorem protect_state_machine (verify : String → JwtVerify)
    (findById : Nat → Option UserRec) (hdr : Option String) :
    (extractBearerToken hdr = none →
      protect verify findById hdr = .reject 401 "Not authorized to access this route") ∧
    (∀ t, extractBearerToken hdr = some t →
      ((verify t = .expired ∨ verify t = .malformed ∨ verify t = .invalidSignature) →
        protect verify findById hdr = .reject 401 "Not authorized, token failed") ∧
      (∀ id r, verify t = .ok id r →
        protect verify findById hdr = .next (findById id))) := by
  cases h : extractBearerToken hdr with
  | none =>
      exact ⟨fun _ => by simp [protect, protectCore, h],
             fun t ht => absurd ht (by simp)⟩
  | some t0 =>
      refine ⟨fun h0 => absurd h0 (by simp), fun t ht => ?_⟩
      obtain rfl : t0 = t := Option.some.inj ht
      refine ⟨fun hbad => ?_, fun id r hok => ?_⟩
      · rcases hbad with h1 | h1 | h1 <;> simp [protect, protectCore, h, h1]
      · simp [protect, protectCore, h, hok]

/-- C3 witness: the three reachable outcomes at concrete headers. -/
theorem protect_state_machine_witness :
    protect sampleVerify sampleFindNone none
      = .reject 401 "Not authorized to access this route" ∧
    protect sampleVerify sampleFindNone (some "Bearer exp")
      = .reject 401 "Not authorized, token failed" ∧
    protect sampleVerify sampleFindNone (some "Bearer tok") = .next none :=
  ⟨(protect_state_machine sampleVerify sampleFindNone none).1 rfl,
   ((protect_state_machine sampleVerify sampleFindNone (some "Bearer exp")).2
      "exp" (by decide)).1 (Or.inl (by decide)),
   ((protect_state_machine sampleVerify sampleFindNone (some "Bearer tok")).2
      "tok" (by decide)).2 7 Role.teacher (by decide)⟩

/-- Shape of a successful registration: a 201 implies no identity existed
for that email, and exactly one identity was appended, stored with the
lowercased email. -/
theorem register_success_shape
    (db : DB) (req : RegisterReq) (valErrs : Bool) (now c : Nat) (emailOk : Bool)
    (h201 : (register db req valErrs now c emailOk).resp.status = 201) :
    findUserByEmail db req.email = none ∧
    ∃ u, (register db req valErrs now c emailOk).db.users = db.users ++ [u]
      ∧ u.email = strLower req.email := by
  cases valErrs with
  | true => simp [register] at h201
  | false =>
    cases hA : strIncludes req.originalUrl "/register/admin" with
    | true =>
      cases hfu : findUserByEmail db req.email with
      | some u => simp [register, hA, hfu] at h201
      | none =>
        refine ⟨rfl, ?_⟩
        cases hT : strIncludes req.originalUrl "/register/teacher" with
        | true =>
          cases hg : findTeacherEmailUnused db req.email with
          | none => simp [register, hA, hT, hfu, hg] at h201
          | some doc =>
            cases hval : createValidationOk req.name (strLower req.email) req.password with
            | false => simp [register, hA, hT, hfu, hg, hval] at h201
            | true =>
              exact ⟨{ id := db.users.length, name := req.name,
                       email := strLower req.email,
                       password := ⟨req.password, c⟩, role := Role.admin,
                       isEmailVerified := true,
                       emailVerificationToken :=
                         some (TokVal.sha256 (TokVal.rand (c + 1))),
                       emailVerificationExpire := some (now + 10 * 60 * 1000),
                       resetPasswordToken := none, resetPasswordExpire := none,
                       teacherEmailId := some doc.id },
                     by simp [register, hA, hT, hfu, hg, hval], rfl⟩
        | false =>
          cases hval : createValidationOk req.name (strLower req.email) req.password with
          | false => simp [register, hA, hT, hfu, hval] at h201
          | true =>
            exact ⟨{ id := db.users.length, name := req.name,
                     email := strLower req.email,
                     password := ⟨req.password, c⟩, role := Role.admin,
                     isEmailVerified := true,
                     emailVerificationToken := none,
                     emailVerificationExpire := none,
                     resetPasswordToken := none, resetPasswordExpire := none,
                     teacherEmailId := none },
                   by simp [register, hA, hT, hfu, hval], rfl⟩
    | false =>
      cases hfmt : validEmailFormat req.email with
      | false => simp [register, hA, hfmt] at h201
      | true =>
        cases hT : strIncludes req.originalUrl "/register/teacher" with
        | true =>
          cases hfu : findUserByEmail db req.email with
          | some u => simp [register, hA, hfmt, hT, hfu] at h201
          | none =>
            refine ⟨rfl, ?_⟩
            cases hg : findTeacherEmailUnused db req.email with
            | none => simp [register, hA, hfmt, hT, hfu, hg] at h201
            | some doc =>
              cases hval : createValidationOk req.name (strLower req.email) req.password with
              | false => simp [register, hA, hfmt, hT, hfu, hg, hval] at h201
              | true =>
                exact ⟨{ id := db.users.length, name := req.name,
                         email := strLower req.email,
                         password := ⟨req.password, c⟩, role := Role.teacher,
                         isEmailVerified := false,
                         emailVerificationToken :=
                           some (TokVal.sha256 (TokVal.rand (c + 1))),
                         emailVerificationExpire := some (now + 10 * 60 * 1000),
                         resetPasswordToken := none, resetPasswordExpire := none,
                         teacherEmailId := some doc.id },
                       by simp [register, hA, hfmt, hT, hfu, hg, hval], rfl⟩
        | false =>
          cases hdom : studentDomainOk req.email with
          | false => simp [register, hA, hfmt, hT, hdom] at h201
          | true =>
            cases hfu : findUserByEmail db req.email with
            | some u => simp [register, hA, hfmt, hT, hdom, hfu] at h201
            | none =>
              refine ⟨rfl, ?_⟩
              cases hval : createValidationOk req.name (strLower req.email) req.password with
              | false => simp [register, hA, hfmt, hT, hdom, hfu, hval] at h201
              | true =>
                exact ⟨{ id := db.users.length, name := req.name,
                         email := strLower req.email,
                         password := ⟨req.password, c⟩, role := Role.student,
                         isEmailVerified := true,
                         emailVerificationToken := none,
                         emailVerificationExpire := none,
                         resetPasswordToken := none, resetPasswordExpire := none,
                         teacherEmailId := none },
                       by simp [register, hA, hfmt, hT, hdom, hfu, hval], rfl⟩

/-- C9: after a successful registration, a second registration whose email
differs only in letter case (same lowercased form) is rejected with 400
"User already exists with this email" and creates nothing — the duplicate
check is case-insensitive because emails are lowercased at the boundary
(on write by the controller and the schema setter, on lookup by the query
setter). -/
theorem register_duplicate_email_rejected_case_insensitive
    (db : DB) (r1 r2 : RegisterReq) (now1 c1 now2 c2 : Nat) (e1ok e2ok : Bool)
    (h201 : (register db r1 false now1 c1 e1ok).resp.status = 201)
    (hcase : strLower r2.email = strLower r1.email)
    (hA2 : strIncludes r2.originalUrl "/register/admin" = false)
    (hT2 : strIncludes r2.originalUrl "/register/teacher" = false)
    (hfmt2 : validEmailFormat r2.email = true)
    (hdom2 : studentDomainOk r2.email = true) :
    register (register db r1 false now1 c1 e1ok).db r2 false now2 c2 e2ok =
      ⟨⟨400, false, "User already exists with this email", none, none⟩,
       (register db r1 false now1 c1 e1ok).db, []⟩ := by
  obtain ⟨hnone, u, husers, huemail⟩ :=
    register_success_shape db r1 false now1 c1 e1ok h201
  have hfind2 : findUserByEmail (register db r1 false now1 c1 e1ok).db r2.email
      = some u := by
    unfold findUserByEmail at hnone ⊢
    rw [husers, hcase, List.find?_append, hnone]
    simp [List.find?, huemail]
  generalize hG : (register db r1 false now1 c1 e1ok).db = db1 at hfind2 ⊢
  simp [register, hA2, hT2, hfmt2, hdom2, hfind2]

/-- A first registration request with a mixed-case student email. -/
def reqStudentAnn : RegisterReq :=
  ⟨"/api/auth/register", "Ann", "Ann@students.git.edu", "abc123"⟩

/-- A second registration whose email differs from `reqStudentAnn`'s only in
letter case. -/
def reqStudentAnn2 : RegisterReq :=
  ⟨"/api/auth/register", "Ann Again", "ann@Students.Git.Edu", "xyz999"⟩

/-- C9 witness: the two case-variant registrations at a concrete store. -/
theorem register_duplicate_email_rejected_case_insensitive_witness :
    register (register ⟨[], []⟩ reqStudentAnn false 0 0 true).db reqStudentAnn2
        false 1 5 true =
      ⟨⟨400, false, "User already exists with this email", none, none⟩,
       (register ⟨[], []⟩ reqStudentAnn false 0 0 true).db, []⟩ :=
  register_duplicate_email_rejected_case_insensitive ⟨[], []⟩ reqStudentAnn
    reqStudentAnn2 0 0 1 5 true true (by decide) (by decide) (by decide)
    (by decide) (by decide) (by decide)

/-- An allow-list entry holding an unexpired one-time code. -/
def grantWithCode : TeacherEmailRec :=
  ⟨3, "prof@git.edu", some "123456", 1000, false, none, false⟩

/-- Store with the one-time-code allow-list entry. -/
def dbGrantWithCode : DB := ⟨[], [grantWithCode]⟩

/-- C10: when a teacher one-time code verifies, the same save that sets
`isVerified := true` clears `verificationCode`; consequently a second
verify request with the same email and code — at any later (or earlier)
time, expiry aside — answers 400 "Invalid or expired verification code"
and changes nothing: a given code can succeed at most once. (The
hypothesis that stored emails are pairwise distinct reflects the unique
index on `TeacherEmail.email`.) -/
theorem verifyTeacher_code_single_use
    (db : DB) (email code : String) (now now2 : Nat) (t : TeacherEmailRec)
    (huniq : db.teacherEmails.Pairwise (fun a b => a.email ≠ b.email))
    (hfind : verifyTeacherFind db email code now = some t) :
    (verifyTeacher db email code now).1.status = 200 ∧
    (∀ x ∈ (verifyTeacher db email code now).2.teacherEmails,
      x.id = t.id → x.isVerified = true ∧ x.verificationCode = none) ∧
    verifyTeacher ((verifyTeacher db email code now).2) email code now2 =
      (⟨400, false, "Invalid or expired verification code", none, none⟩,
       (verifyTeacher db email code now).2) := by
  have hp := List.find?_some hfind
  have hmem := List.mem_of_find?_eq_some hfind
  simp only [Bool.and_eq_true, beq_iff_eq, decide_eq_true_eq] at hp
  obtain ⟨⟨⟨htemail, htcode⟩, htexp⟩, htused⟩ := hp
  have h1 : verifyTeacher db email code now =
      (⟨200, true,
        "Email verified successfully. You can now complete your teacher registration.",
        none, none⟩,
       ⟨db.users, db.teacherEmails.map (fun x => if x.id == t.id then
          { t with isVerified := true, verifiedAt := some now,
                   verificationCode := none } else x)⟩) := by
    simp [verifyTeacher, hfind]
  refine ⟨by rw [h1], ?_, ?_⟩
  · rw [h1]
    intro x hx hxid
    simp only [List.mem_map] at hx
    obtain ⟨y, hy, hyx⟩ := hx
    cases hid : (y.id == t.id) with
    | true => rw [hid] at hyx; simp at hyx; rw [← hyx]; exact ⟨rfl, rfl⟩
    | false =>
        rw [hid] at hyx; simp at hyx
        rw [← hyx] at hxid
        exact absurd hxid (by simpa using hid)
  · rw [h1]
    have hnone : verifyTeacherFind
        ⟨db.users, db.teacherEmails.map (fun x => if x.id == t.id then
          { t with isVerified := true, verifiedAt := some now,
                   verificationCode := none } else x)⟩ email code now2 = none := by
      unfold verifyTeacherFind
      rw [List.find?_eq_none]
      intro x hx
      simp only [List.mem_map] at hx
      obtain ⟨y, hy, rfl⟩ := hx
      cases hid : (y.id == t.id) with
      | true => simp [hid]
      | false =>
          have hyt : y ≠ t := by
            intro hEq
            rw [hEq] at hid
            simp at hid
          have hsym : Symmetric (fun (a b : TeacherEmailRec) => a.email ≠ b.email) :=
            fun _ _ h hEq => h hEq.symm
          have hemail : y.email ≠ t.email := huniq.forall hsym hy hmem hyt
          simp [hid, htemail ▸ hemail]
    unfold verifyTeacher
    rw [hnone]

/-- C10 witness: verify a concrete code once, then see the replay fail. -/
theorem verifyTeacher_code_single_use_witness :
    (verifyTeacher dbGrantWithCode "Prof@git.edu" "123456" 10).1.status = 200 ∧
    (∀ x ∈ (verifyTeacher dbGrantWithCode "Prof@git.edu" "123456" 10).2.teacherEmails,
      x.id = grantWithCode.id → x.isVerified = true ∧ x.verificationCode = none) ∧
    verifyTeacher ((verifyTeacher dbGrantWithCode "Prof@git.edu" "123456" 10).2)
        "Prof@git.edu" "123456" 20 =
      (⟨400, false, "Invalid or expired verification code", none, none⟩,
       (verifyTeacher dbGrantWithCode "Prof@git.edu" "123456" 10).2) :=
  verifyTeacher_code_single_use dbGrantWithCode "Prof@git.edu" "123456" 10 20
    grantWithCode (by decide) (by decide)

end GitTutor
